import Mathlib

/-!
Verification of the Stock-Analysis dashboard.

The repository contains the React presentation layer (Formatters.js, the
tab components, the Buffett gauge) together with ancillary documentation
describing the FastAPI backend that computes the Piotroski score, the KPI
set and the Buffett indicator.  The presentation code is embedded directly
from the source; the backend scoring engine is not part of the repository
surface and is modelled from the specification where a claim depends on it
(each such definition carries a doc comment starting with
`Modelled from the spec:`).

Numeric fields are modelled as rationals; a possibly missing (null or
absent) upstream field is an `Option`.
-/

namespace StockAnalysis

/-! ## Formatters.js (src/stock-dashboard/src/utils/Formatters.js) -/

/-- Result record of `getPiotroskiColor`: a CSS color and a display label. -/
structure ScoreColor where
  text : String
  label : String
deriving DecidableEq, Repr

/-- Embeds `getPiotroskiColor` (Formatters.js lines 10-14):
color and label chosen from the Piotroski total score by the
fixed thresholds score >= 7, score >= 4, otherwise. -/
def getPiotroskiColor (score : ℕ) : ScoreColor :=
  if 7 ≤ score then ⟨"#22c55e", "SOLIDE"⟩
  else if 4 ≤ score then ⟨"#f59e0b", "MOYEN"⟩
  else ⟨"#ef4444", "FAIBLE"⟩

/-- Embeds `getScoreLabel` (src/unnamed/part_002 lines 65-69), the same
threshold chain used by the legacy dashboard shell. -/
def getScoreLabel (score : ℕ) : String :=
  if 7 ≤ score then "EXCELLENT"
  else if 4 ≤ score then "MOYEN"
  else "FAIBLE"

/-- Property names an object literal inherits from `Object.prototype`
(ECMA-262): for these keys `symbols[currency]` is not undefined but an
inherited function (or, for proto, the prototype object), all truthy. -/
def objectPrototypeKeys : List String :=
  ["constructor", "hasOwnProperty", "isPrototypeOf", "propertyIsEnumerable",
   "toLocaleString", "toString", "valueOf", "__proto__",
   "__defineGetter__", "__defineSetter__", "__lookupGetter__", "__lookupSetter__"]

/-- Value returned by the currency-symbol lookup: either a string, or a
non-string value inherited from `Object.prototype` (tagged by the
property name that produced it). -/
inductive JsValue where
  | str : String → JsValue
  | inherited : String → JsValue
deriving DecidableEq, Repr

/-- Embeds `getCurrencySymbol` (Formatters.js lines 40-43):
`symbols[currency] || currency` on the four-entry object literal mapping
USD, EUR, GBP, JPY to their symbols.  Property lookup finds
the four own keys first (non-empty strings, truthy), then the
`Object.prototype` chain: for a key such as `toString` the lookup yields
a truthy inherited function, which `||` returns as-is; only a key absent
from both falls through to the input string. -/
def getCurrencySymbol (currency : String) : JsValue :=
  if currency = "USD" then JsValue.str "$"
  else if currency = "EUR" then JsValue.str "€"
  else if currency = "GBP" then JsValue.str "£"
  else if currency = "JPY" then JsValue.str "¥"
  else if currency ∈ objectPrototypeKeys then JsValue.inherited currency
  else JsValue.str currency

/-- Record with a string `year` field plus the remaining payload, as
consumed by `sortByYear` (dividend and profit-margin history rows). -/
structure YearRecord (α : Type) where
  year : String
  payload : α
deriving DecidableEq, Repr

/-- Boolean year comparison used by `sortByYear`
(`a.year.localeCompare(b.year)`, which on the digit-string year labels
is plain lexicographic string order). -/
def yearLe {α : Type} (a b : YearRecord α) : Bool :=
  decide (a.year ≤ b.year)

/-- Embeds `sortByYear` (Formatters.js lines 6-7):
`[...arr].sort((a, b) => a.year.localeCompare(b.year))` — a copy of the
input sorted ascending by year with a stable sort. -/
def sortByYear {α : Type} (arr : List (YearRecord α)) : List (YearRecord α) :=
  arr.mergeSort yearLe

/-! ## KPI rendering (OverviewTab.jsx lines 33-50, src/unnamed/part_002 lines 153-175) -/

/-- Rendered state of a KPI slot: the not-available marker or a shown value. -/
inductive KpiDisplay where
  | na : KpiDisplay
  | shown : ℚ → KpiDisplay
deriving DecidableEq, Repr

/-- Embeds the KPI display pattern of OverviewTab and the dashboard shell:
`kpis.pe_ratio || (N/A)`, `kpis.dividend_yield ? ... : (N/A)`, etc.
JavaScript truthiness makes a missing (null/undefined) field and the
number 0 both fall to the not-available marker. -/
def renderKpi : Option ℚ → KpiDisplay
  | none => KpiDisplay.na
  | some v => if v = 0 then KpiDisplay.na else KpiDisplay.shown v

/-! ## Buffett gauge geometry (Useismobile.js: BuffettGauge lines 35-41, BuffettTab line 298) -/

/-- Embeds the progress-arc length of `BuffettGauge`:
`(Math.min(ratio, maxRatio) / maxRatio) * circumference` with
`maxRatio = 200`.  The circumference (pi times the radius in the source)
is kept as a parameter. -/
def gaugeProgress (r circumference : ℚ) : ℚ :=
  min r 200 / 200 * circumference

/-- Embeds the comparison-bar width of `BuffettTab`:
`Math.min((c.ratio / 200) * 100, 100)` (percent). -/
def barWidth (r : ℚ) : ℚ :=
  min (r / 200 * 100) 100

/-! ## Theorems on the presentation code -/

/-- C4: the interpretation tier is chosen by fixed thresholds on the total
score: a score of at least 7 selects the solid tier, a score between 4 and
6 the average tier, and a score below 4 the weak tier; the three cases are
mutually exclusive and cover every score, in both `getPiotroskiColor` and
`getScoreLabel`. -/
theorem piotroski_tier_thresholds (s : ℕ) :
    ((getPiotroskiColor s).label = "SOLIDE" ↔ 7 ≤ s)
    ∧ ((getPiotroskiColor s).label = "MOYEN" ↔ 4 ≤ s ∧ s ≤ 6)
    ∧ ((getPiotroskiColor s).label = "FAIBLE" ↔ s < 4)
    ∧ (getScoreLabel s = "EXCELLENT" ↔ 7 ≤ s)
    ∧ (getScoreLabel s = "MOYEN" ↔ 4 ≤ s ∧ s ≤ 6)
    ∧ (getScoreLabel s = "FAIBLE" ↔ s < 4) := by
  unfold getPiotroskiColor getScoreLabel
  split_ifs with h1 h2 <;>
    refine ⟨?_, ?_, ?_, ?_, ?_, ?_⟩ <;>
    simp <;> omega

/-- C10 counterexample: the currency code toString hits the inherited
`Object.prototype` property, so the function returns the truthy inherited
function instead of the input code unchanged; and on the empty code the
fallback returns the empty string, an empty symbol. -/
theorem getCurrencySymbol_inherited_or_empty :
    getCurrencySymbol "toString" = JsValue.inherited "toString"
    ∧ getCurrencySymbol "toString" ≠ JsValue.str "toString"
    ∧ getCurrencySymbol "" = JsValue.str "" := by
  refine ⟨by decide, by decide, by decide⟩

/-- C10 (amended): `getCurrencySymbol` maps USD, EUR, GBP, JPY to their
symbols; a code that names an `Object.prototype` property (toString,
constructor, hasOwnProperty, ...) yields the truthy inherited value, not
a string; every other code is returned unchanged, so the result is a
non-empty string symbol exactly when the input is non-empty and not a
prototype property name. -/
theorem getCurrencySymbol_total (c : String) (h1 : c ≠ "")
    (h2 : c ∉ objectPrototypeKeys) :
    getCurrencySymbol "USD" = JsValue.str "$"
    ∧ getCurrencySymbol "EUR" = JsValue.str "€"
    ∧ getCurrencySymbol "GBP" = JsValue.str "£"
    ∧ getCurrencySymbol "JPY" = JsValue.str "¥"
    ∧ (∀ k ∈ objectPrototypeKeys, getCurrencySymbol k = JsValue.inherited k)
    ∧ (c ≠ "USD" → c ≠ "EUR" → c ≠ "GBP" → c ≠ "JPY" →
        getCurrencySymbol c = JsValue.str c)
    ∧ ∃ s : String, getCurrencySymbol c = JsValue.str s ∧ s ≠ "" := by
  refine ⟨rfl, rfl, rfl, rfl, ?_, ?_, ?_⟩
  · intro k hk
    fin_cases hk <;> rfl
  · intro hc1 hc2 hc3 hc4
    simp [getCurrencySymbol, hc1, hc2, hc3, hc4, h2]
  · unfold getCurrencySymbol
    split_ifs <;>
      first
        | exact ⟨"$", rfl, by decide⟩
        | exact ⟨"€", rfl, by decide⟩
        | exact ⟨"£", rfl, by decide⟩
        | exact ⟨"¥", rfl, by decide⟩
        | (exact absurd (by assumption) h2)
        | exact ⟨c, rfl, h1⟩

/-- Closed witness for C10: a concrete unmapped, non-prototype code is
returned unchanged as a non-empty symbol, while a prototype property
name yields the inherited value. -/
theorem getCurrencySymbol_total_witness :
    getCurrencySymbol "CHF" = JsValue.str "CHF"
    ∧ getCurrencySymbol "valueOf" = JsValue.inherited "valueOf" := by
  have h := getCurrencySymbol_total "CHF" (by decide) (by decide)
  exact ⟨h.2.2.2.2.2.1 (by decide) (by decide) (by decide) (by decide),
    h.2.2.2.2.1 "valueOf" (by decide)⟩

/-- C5 counterexample: a reported value of exactly zero is rendered as the
not-available marker, not as a shown zero. -/
theorem renderKpi_zero_is_na : renderKpi (some 0) = KpiDisplay.na := rfl

/-- C5 (amended): a missing upstream field is always rendered as the
not-available marker, but a reported zero is rendered as the marker as
well — the truthiness test of the display code does not keep zero
distinct from absence.  Every non-zero value is shown. -/
theorem renderKpi_na_characterisation (v : Option ℚ) :
    renderKpi v = KpiDisplay.na ↔ v = none ∨ v = some 0 := by
  rcases v with _ | x
  · simp [renderKpi]
  · by_cases hx : x = 0 <;> simp [renderKpi, hx]

/-- C8: `sortByYear` returns a permutation of its input that is sorted
ascending by the string year field, and is idempotent.  The source copies
the array (`[...arr]`) before sorting, and the embedding is a pure
function of the input, so the input list itself is left unmodified. -/
theorem sortByYear_spec {α : Type} (l : List (YearRecord α)) :
    (sortByYear l).Perm l
    ∧ (sortByYear l).Pairwise (fun a b => a.year ≤ b.year)
    ∧ sortByYear (sortByYear l) = sortByYear l := by
  have htrans : ∀ a b c : YearRecord α,
      yearLe a b = true → yearLe b c = true → yearLe a c = true := by
    intro a b c hab hbc
    simp only [yearLe, decide_eq_true_eq] at *
    exact le_trans hab hbc
  have htotal : ∀ a b : YearRecord α, (yearLe a b || yearLe b a) = true := by
    intro a b
    simp only [yearLe, Bool.or_eq_true, decide_eq_true_eq]
    exact le_total a.year b.year
  have hsorted := @List.sorted_mergeSort (YearRecord α) yearLe htrans htotal l
  refine ⟨List.mergeSort_perm l yearLe, ?_, ?_⟩
  · exact hsorted.imp (fun h => by simpa [yearLe, decide_eq_true_eq] using h)
  · exact List.mergeSort_of_sorted hsorted

/-- C9: for every non-negative ratio the gauge progress arc never exceeds
the full semicircle (the ratio is clamped at 200 before scaling), the arc
length is non-negative, and the comparison-bar width never exceeds 100
percent. -/
theorem gauge_geometry_bounded (r c : ℚ) (hr : 0 ≤ r) (hc : 0 ≤ c) :
    gaugeProgress r c ≤ c ∧ 0 ≤ gaugeProgress r c ∧ barWidth r ≤ 100 := by
  refine ⟨?_, ?_, min_le_right _ _⟩
  · have h1 : min r 200 ≤ 200 := min_le_right _ _
    have h2 : min r 200 / 200 ≤ 1 := by
      rw [div_le_one (by norm_num)]
      exact h1
    calc min r 200 / 200 * c ≤ 1 * c := by
          exact mul_le_mul_of_nonneg_right h2 hc
      _ = c := one_mul c
  · have h0 : 0 ≤ min r 200 := le_min hr (by norm_num)
    have : 0 ≤ min r 200 / 200 := by positivity
    exact mul_nonneg this hc

/-- Closed witness for C9: an arbitrarily large ratio (1000) cannot
overflow the gauge or the bar. -/
theorem gauge_geometry_bounded_witness :
    gaugeProgress 1000 251 ≤ 251 ∧ 0 ≤ gaugeProgress 1000 251 ∧ barWidth 1000 ≤ 100 :=
  gauge_geometry_bounded 1000 251 (by norm_num) (by norm_num)

/-! ## Piotroski scoring engine

The FastAPI backend (`backend/main.py`) that computes the Piotroski score
is referenced by the README and consumed by every frontend component, but
its source is not part of the repository surface; the definitions below
are modelled from the specification. -/

/-- Modelled from the spec: one fiscal year of reported figures
(data model §3, FinancialStatementYear); every figure is nullable. -/
structure FinancialStatementYear where
  fiscal_year : String
  total_assets : Option ℚ
  net_income : Option ℚ
  operating_cash_flow : Option ℚ
  current_assets : Option ℚ
  current_liabilities : Option ℚ
  long_term_debt : Option ℚ
  shares_outstanding : Option ℚ
  gross_profit : Option ℚ
  revenue : Option ℚ
deriving DecidableEq, Repr

/-- Modelled from the spec: every ratio division guards against zero or
missing denominators and fails soft to null (§4.1). -/
def safeDiv : Option ℚ → Option ℚ → Option ℚ
  | some a, some b => if b = 0 then none else some (a / b)
  | _, _ => none

/-- Modelled from the spec: ROA = net income / total assets (§4.1). -/
def roa (y : FinancialStatementYear) : Option ℚ :=
  safeDiv y.net_income y.total_assets

/-- Modelled from the spec: gross margin = gross profit / revenue (§4.1). -/
def grossMargin (y : FinancialStatementYear) : Option ℚ :=
  safeDiv y.gross_profit y.revenue

/-- Modelled from the spec: asset turnover = revenue / total assets (§4.1). -/
def assetTurnover (y : FinancialStatementYear) : Option ℚ :=
  safeDiv y.revenue y.total_assets

/-- Modelled from the spec: current ratio = current assets / current
liabilities (§4.1). -/
def currentRatio (y : FinancialStatementYear) : Option ℚ :=
  safeDiv y.current_assets y.current_liabilities

/-- Modelled from the spec: long-term debt ratio = long-term debt / total
assets, the year-over-year leverage quantity of §4.2. -/
def debtRatio (y : FinancialStatementYear) : Option ℚ :=
  safeDiv y.long_term_debt y.total_assets

/-- Modelled from the spec: binary test, 1 iff the value is present and
strictly positive; missing evidence scores 0 (§4.1 rule). -/
def testPos : Option ℚ → ℕ
  | some v => if 0 < v then 1 else 0
  | none => 0

/-- Modelled from the spec: binary improvement test, 1 iff both values are
present and the first strictly exceeds the second; a missing side scores 0
(§4.2 edge policy, §9 strict comparison). -/
def testGt : Option ℚ → Option ℚ → ℕ
  | some a, some b => if b < a then 1 else 0
  | _, _ => 0

/-- Modelled from the spec: binary did-not-increase test, 1 iff both
values are present and the first is at most the second; a missing side
scores 0 (§4.2 edge policy). -/
def testLe : Option ℚ → Option ℚ → ℕ
  | some a, some b => if a ≤ b then 1 else 0
  | _, _ => 0

/-- Modelled from the spec: one Piotroski criterion with its binary score
and auditable detail text (§3). -/
structure PiotroskiCriterion where
  criterion : String
  score : ℕ
  detail : String
deriving DecidableEq, Repr

/-- Modelled from the spec: the structured Piotroski result — total score,
the 4 profitability, 3 leverage and 2 operating criteria, and the
interpretation text (§3). -/
structure PiotroskiScore where
  total_score : ℕ
  profitability : List PiotroskiCriterion
  leverage : List PiotroskiCriterion
  operating : List PiotroskiCriterion
  interpretation : String
deriving DecidableEq, Repr

/-- Modelled from the spec: interpretation text chosen by the fixed
thresholds of §4.2 (at least 7 solid, 4 to 6 average, below 4 weak). -/
def piotroskiInterpretation (total : ℕ) : String :=
  if 7 ≤ total then "Financially solid company"
  else if 4 ≤ total then "Average financial strength"
  else "Financially weak company"

/-- Modelled from the spec: the PiotroskiScorer (§4.2), a pure function of
the current year and the optional prior year applying the nine binary
tests; with no prior year every year-over-year test scores 0. -/
def scorePiotroski (curr : FinancialStatementYear)
    (prior : Option FinancialStatementYear) : PiotroskiScore :=
  let p1 := testPos (roa curr)
  let p2 := testPos curr.operating_cash_flow
  let p3 := testGt (roa curr) (prior.bind roa)
  let p4 := testGt curr.operating_cash_flow curr.net_income
  let l1 := testLe (debtRatio curr) (prior.bind debtRatio)
  let l2 := testGt (currentRatio curr) (prior.bind currentRatio)
  let l3 := testLe curr.shares_outstanding
              (prior.bind fun y => y.shares_outstanding)
  let o1 := testGt (grossMargin curr) (prior.bind grossMargin)
  let o2 := testGt (assetTurnover curr) (prior.bind assetTurnover)
  let total := p1 + p2 + p3 + p4 + l1 + l2 + l3 + o1 + o2
  { total_score := total
    profitability :=
      [ ⟨"ROA positive", p1, "ROA above zero"⟩
      , ⟨"Operating cash flow positive", p2, "operating cash flow above zero"⟩
      , ⟨"ROA growth", p3, "ROA current year vs prior year"⟩
      , ⟨"Quality of earnings", p4, "operating cash flow vs net income"⟩ ]
    leverage :=
      [ ⟨"Debt ratio did not increase", l1, "debt ratio current vs prior year"⟩
      , ⟨"Current ratio improved", l2, "current ratio current vs prior year"⟩
      , ⟨"No dilutive share issuance", l3, "shares outstanding current vs prior year"⟩ ]
    operating :=
      [ ⟨"Gross margin improved", o1, "gross margin current vs prior year"⟩
      , ⟨"Asset turnover improved", o2, "asset turnover current vs prior year"⟩ ]
    interpretation := piotroskiInterpretation total }

/-- Modelled from the spec: scoring over an ascending statement series
(§3 invariant); the most recent year is current, the one before it prior;
with a single year there is no prior; an empty series yields nothing. -/
def scoreFromSeries (series : List FinancialStatementYear) : Option PiotroskiScore :=
  match series.reverse with
  | [] => none
  | [c] => some (scorePiotroski c none)
  | c :: p :: _ => some (scorePiotroski c (some p))

/-! ## Buffett indicator engine -/

/-- Modelled from the spec: per-country macro input from the Macro Data
Provider (§6); market cap and GDP are nullable when unavailable. -/
structure CountryData where
  country : String
  flag : String
  market_cap : Option ℚ
  gdp : Option ℚ
  unit : String
  source : String
deriving DecidableEq, Repr

/-- Modelled from the spec: one BuffettCountryEntry of the batch response
(§3); on error only country, flag and the error marker are populated. -/
structure BuffettCountryEntry where
  country : String
  flag : String
  error : Bool
  ratio : Option ℤ
  label : Option String
  color : Option String
  message : Option String
deriving DecidableEq, Repr

/-- Modelled from the spec: classification bands of the Buffett indicator
(§4.4), lower bound inclusive, upper bound exclusive. -/
def classifyBuffett (r : ℚ) : String :=
  if r < 75 then "Undervalued"
  else if r < 100 then "Fairly valued"
  else if r < 125 then "Slightly overvalued"
  else if r < 150 then "Strongly overvalued"
  else "Extremely overvalued"

/-- Modelled from the spec: band colors of §4.4 (hex values as displayed
by the ThresholdLegend of the frontend). -/
def buffettColor (r : ℚ) : String :=
  if r < 75 then "#22c55e"
  else if r < 100 then "#60a5fa"
  else if r < 125 then "#f59e0b"
  else if r < 150 then "#ef4444"
  else "#dc2626"

/-- Modelled from the spec: availability of the underlying macro data for
one country — both figures present and the GDP denominator positive. -/
def hasMacroData (d : CountryData) : Bool :=
  match d.market_cap, d.gdp with
  | some _, some g => decide (0 < g)
  | _, _ => false

/-- Modelled from the spec: the error entry for a country whose data is
unavailable — only country, flag and the error marker populated (§3). -/
def errorEntry (d : CountryData) : BuffettCountryEntry :=
  { country := d.country, flag := d.flag, error := true
    ratio := none, label := none, color := none, message := none }

/-- Modelled from the spec: per-country computation of the
BuffettIndicatorEngine (§4.4): ratio = round(market cap / gdp * 100),
classified against the fixed bands; unavailable data yields the error
entry instead of failing. -/
def buildEntry (d : CountryData) : BuffettCountryEntry :=
  match d.market_cap, d.gdp with
  | some mc, some g =>
      if 0 < g then
        let r : ℤ := round (mc / g * 100)
        { country := d.country, flag := d.flag, error := false
          ratio := some r, label := some (classifyBuffett (r : ℚ))
          color := some (buffettColor (r : ℚ))
          message := some ("Classification: " ++ classifyBuffett (r : ℚ)) }
      else errorEntry d
  | _, _ => errorEntry d

/-- Modelled from the spec: the batch runs the per-country computation
independently over the fixed country list (§4.4, §5). -/
def buffettBatch (ds : List CountryData) : List BuffettCountryEntry :=
  ds.map buildEntry

/-! ## Helper lemmas on the binary tests -/

lemma testPos_zero_or_one (v : Option ℚ) : testPos v = 0 ∨ testPos v = 1 := by
  rcases v with _ | x
  · exact Or.inl rfl
  · simp only [testPos]
    split_ifs <;> simp

lemma testGt_zero_or_one (a b : Option ℚ) : testGt a b = 0 ∨ testGt a b = 1 := by
  rcases a with _ | x <;> rcases b with _ | y <;> try exact Or.inl rfl
  simp only [testGt]
  split_ifs <;> simp

lemma testLe_zero_or_one (a b : Option ℚ) : testLe a b = 0 ∨ testLe a b = 1 := by
  rcases a with _ | x <;> rcases b with _ | y <;> try exact Or.inl rfl
  simp only [testLe]
  split_ifs <;> simp

lemma testPos_le_one (v : Option ℚ) : testPos v ≤ 1 := by
  rcases testPos_zero_or_one v with h | h <;> omega

lemma testGt_le_one (a b : Option ℚ) : testGt a b ≤ 1 := by
  rcases testGt_zero_or_one a b with h | h <;> omega

lemma testLe_le_one (a b : Option ℚ) : testLe a b ≤ 1 := by
  rcases testLe_zero_or_one a b with h | h <;> omega

lemma testGt_none (a : Option ℚ) : testGt a none = 0 := by
  rcases a with _ | x <;> rfl

lemma testLe_none (a : Option ℚ) : testLe a none = 0 := by
  rcases a with _ | x <;> rfl

/-! ## Theorems on the scoring engine -/

/-- C1: every PiotroskiScore produced by the scorer has a total score
equal to the sum of the scores of the 9 criteria of its profitability
(4), leverage (3) and operating (2) sequences, each criterion score is
exactly 0 or 1, and the total lies in the interval from 0 to 9. -/
theorem piotroski_total_invariant (curr : FinancialStatementYear)
    (prior : Option FinancialStatementYear) :
    (scorePiotroski curr prior).total_score
      = (((scorePiotroski curr prior).profitability
          ++ (scorePiotroski curr prior).leverage
          ++ (scorePiotroski curr prior).operating).map PiotroskiCriterion.score).sum
    ∧ (∀ c ∈ (scorePiotroski curr prior).profitability
          ++ (scorePiotroski curr prior).leverage
          ++ (scorePiotroski curr prior).operating,
        c.score = 0 ∨ c.score = 1)
    ∧ (scorePiotroski curr prior).total_score ≤ 9 := by
  refine ⟨?_, ?_, ?_⟩
  · simp only [scorePiotroski, List.append_assoc, List.map_cons, List.map_nil,
      List.map_append, List.sum_append, List.sum_cons, List.sum_nil]
    omega
  · intro c hc
    simp only [scorePiotroski, List.append_assoc, List.mem_append, List.mem_cons,
      List.not_mem_nil, or_false] at hc
    rcases hc with (h | h | h | h) | (h | h | h) | (h | h) <;> subst h <;>
      first
        | exact testPos_zero_or_one _
        | exact testGt_zero_or_one _ _
        | exact testLe_zero_or_one _ _
  · have b1 := testPos_le_one (roa curr)
    have b2 := testPos_le_one curr.operating_cash_flow
    have b3 := testGt_le_one (roa curr) (prior.bind roa)
    have b4 := testGt_le_one curr.operating_cash_flow curr.net_income
    have b5 := testLe_le_one (debtRatio curr) (prior.bind debtRatio)
    have b6 := testGt_le_one (currentRatio curr) (prior.bind currentRatio)
    have b7 := testLe_le_one curr.shares_outstanding
      (prior.bind fun y => y.shares_outstanding)
    have b8 := testGt_le_one (grossMargin curr) (prior.bind grossMargin)
    have b9 := testGt_le_one (assetTurnover curr) (prior.bind assetTurnover)
    simp only [scorePiotroski]
    omega

/-- C2: when the statement series contains only one year, every criterion
requiring a prior-year comparison scores exactly 0 (in particular the five
named ones: ROA growth, debt ratio, current ratio improvement, gross
margin improvement, asset turnover improvement), the single-year criteria
still compute from the current year, the score still carries all 9
criteria (4 + 3 + 2), and the total score is at most 4. -/
theorem piotroski_single_year (y : FinancialStatementYear) :
    scoreFromSeries [y] = some (scorePiotroski y none)
    ∧ (scorePiotroski y none).profitability.map PiotroskiCriterion.score
        = [testPos (roa y), testPos y.operating_cash_flow, 0,
           testGt y.operating_cash_flow y.net_income]
    ∧ (scorePiotroski y none).leverage.map PiotroskiCriterion.score = [0, 0, 0]
    ∧ (scorePiotroski y none).operating.map PiotroskiCriterion.score = [0, 0]
    ∧ (scorePiotroski y none).profitability.length = 4
    ∧ (scorePiotroski y none).leverage.length = 3
    ∧ (scorePiotroski y none).operating.length = 2
    ∧ (scorePiotroski y none).total_score ≤ 4 := by
  rcases testPos_zero_or_one (roa y) with h1 | h1 <;>
  rcases testPos_zero_or_one y.operating_cash_flow with h2 | h2 <;>
  rcases testGt_zero_or_one y.operating_cash_flow y.net_income with h4 | h4 <;>
    simp [scoreFromSeries, scorePiotroski, Option.bind, testGt_none, testLe_none,
      h1, h2, h4]

/-- C3: the Buffett band classification is a total, non-overlapping
partition: every ratio maps to exactly one of the five labels, each band
inclusive at its lower bound and exclusive at its upper bound, with no
gap (in particular 150 falls in the last band only). -/
theorem buffett_bands_partition (r : ℚ) :
    (classifyBuffett r = "Undervalued" ↔ r < 75)
    ∧ (classifyBuffett r = "Fairly valued" ↔ 75 ≤ r ∧ r < 100)
    ∧ (classifyBuffett r = "Slightly overvalued" ↔ 100 ≤ r ∧ r < 125)
    ∧ (classifyBuffett r = "Strongly overvalued" ↔ 125 ≤ r ∧ r < 150)
    ∧ (classifyBuffett r = "Extremely overvalued" ↔ 150 ≤ r) := by
  unfold classifyBuffett
  split_ifs with h1 h2 h3 h4
  · exact ⟨iff_of_true rfl h1,
      iff_of_false (by decide) (by rintro ⟨hx, hy⟩; linarith),
      iff_of_false (by decide) (by rintro ⟨hx, hy⟩; linarith),
      iff_of_false (by decide) (by rintro ⟨hx, hy⟩; linarith),
      iff_of_false (by decide) (by intro hx; linarith)⟩
  · exact ⟨iff_of_false (by decide) h1,
      iff_of_true rfl ⟨by linarith, h2⟩,
      iff_of_false (by decide) (by rintro ⟨hx, hy⟩; linarith),
      iff_of_false (by decide) (by rintro ⟨hx, hy⟩; linarith),
      iff_of_false (by decide) (by intro hx; linarith)⟩
  · exact ⟨iff_of_false (by decide) h1,
      iff_of_false (by decide) (by rintro ⟨hx, hy⟩; exact h2 hy),
      iff_of_true rfl ⟨by linarith, h3⟩,
      iff_of_false (by decide) (by rintro ⟨hx, hy⟩; linarith),
      iff_of_false (by decide) (by intro hx; linarith)⟩
  · exact ⟨iff_of_false (by decide) h1,
      iff_of_false (by decide) (by rintro ⟨hx, hy⟩; exact h2 hy),
      iff_of_false (by decide) (by rintro ⟨hx, hy⟩; exact h3 hy),
      iff_of_true rfl ⟨by linarith, h4⟩,
      iff_of_false (by decide) (by intro hx; linarith)⟩
  · exact ⟨iff_of_false (by decide) h1,
      iff_of_false (by decide) (by rintro ⟨hx, hy⟩; exact h2 hy),
      iff_of_false (by decide) (by rintro ⟨hx, hy⟩; exact h3 hy),
      iff_of_false (by decide) (by rintro ⟨hx, hy⟩; exact h4 hy),
      iff_of_true rfl (by linarith)⟩

/-- C6: a country whose macro data is unavailable yields an entry with the
error marker set and only country and flag populated (no ratio, label,
color or message), while every country with available data yields an
error-free entry with a computed ratio; each entry of the batch is a
function of that country's input alone, so one failure never fails or
alters the rest of the batch. -/
theorem buffett_batch_isolation (ds : List CountryData) (d : CountryData) :
    (buffettBatch ds).length = ds.length
    ∧ (∀ i : ℕ, (buffettBatch ds)[i]? = (ds[i]?).map buildEntry)
    ∧ (hasMacroData d = false →
        buildEntry d = errorEntry d
        ∧ (buildEntry d).error = true
        ∧ (buildEntry d).ratio = none
        ∧ (buildEntry d).label = none
        ∧ (buildEntry d).color = none
        ∧ (buildEntry d).message = none
        ∧ (buildEntry d).country = d.country
        ∧ (buildEntry d).flag = d.flag)
    ∧ (hasMacroData d = true →
        (buildEntry d).error = false
        ∧ ∃ r : ℤ, (buildEntry d).ratio = some r
            ∧ (buildEntry d).label = some (classifyBuffett (r : ℚ))) := by
  refine ⟨by simp [buffettBatch], fun i => by simp [buffettBatch], ?_, ?_⟩
  · intro hna
    have hb : buildEntry d = errorEntry d := by
      unfold buildEntry
      rcases hmc : d.market_cap with _ | mc <;> rcases hg : d.gdp with _ | g
      · rfl
      · rfl
      · rfl
      · have hng : ¬(0 < g) := by
          intro hpos
          unfold hasMacroData at hna
          rw [hmc, hg] at hna
          simp [hpos] at hna
        simp [hng]
    rw [hb]
    simp [errorEntry]
  · intro hav
    unfold hasMacroData at hav
    revert hav
    rcases hmc : d.market_cap with _ | mc <;> rcases hg : d.gdp with _ | g <;>
      intro hav <;> simp at hav
    unfold buildEntry
    rw [hmc, hg]
    simp [hav]

/-- Closed witness for C6: in a two-country batch, the country without a
GDP figure gets the bare error entry while the other still gets a valid
ratio. -/
theorem buffett_batch_isolation_witness :
    (buildEntry ⟨"Japan", "JP", some 6000, none, "B", "World Bank"⟩).error = true
    ∧ (buildEntry ⟨"Japan", "JP", some 6000, none, "B", "World Bank"⟩).ratio = none
    ∧ (buildEntry ⟨"United States", "US", some 25000, some 21000, "B", "FRED"⟩).error
        = false := by
  have hj := buffett_batch_isolation
    [⟨"United States", "US", some 25000, some 21000, "B", "FRED"⟩,
     ⟨"Japan", "JP", some 6000, none, "B", "World Bank"⟩]
    ⟨"Japan", "JP", some 6000, none, "B", "World Bank"⟩
  have hu := buffett_batch_isolation
    [⟨"United States", "US", some 25000, some 21000, "B", "FRED"⟩,
     ⟨"Japan", "JP", some 6000, none, "B", "World Bank"⟩]
    ⟨"United States", "US", some 25000, some 21000, "B", "FRED"⟩
  have hjna := hj.2.2.1 (by rfl)
  have huav := hu.2.2.2 (by norm_num [hasMacroData])
  exact ⟨hjna.2.1, hjna.2.2.1, huav.1⟩

/-- C7: for every country whose data is present with positive GDP, the
computed indicator equals round(market cap / gdp * 100) and the label is
the band classification of that rounded ratio. -/
theorem buffett_ratio_formula (d : CountryData) (mc g : ℚ)
    (hmc : d.market_cap = some mc) (hg : d.gdp = some g) (hpos : 0 < g) :
    (buildEntry d).ratio = some (round (mc / g * 100))
    ∧ (buildEntry d).label
        = some (classifyBuffett ((round (mc / g * 100) : ℤ) : ℚ)) := by
  unfold buildEntry
  rw [hmc, hg]
  simp [hpos]

/-- Closed witness for C7: market cap 25000 and GDP 21000 (billions USD)
give ratio 119 with label Slightly overvalued. -/
theorem buffett_ratio_formula_witness :
    (buildEntry ⟨"United States", "US", some 25000, some 21000, "B", "FRED"⟩).ratio
      = some 119
    ∧ (buildEntry ⟨"United States", "US", some 25000, some 21000, "B", "FRED"⟩).label
      = some "Slightly overvalued" := by
  have h := buffett_ratio_formula
    ⟨"United States", "US", some 25000, some 21000, "B", "FRED"⟩
    25000 21000 rfl rfl (by norm_num)
  have hr : round ((25000 : ℚ) / 21000 * 100) = (119 : ℤ) := by
    norm_num [round_eq]
  constructor
  · rw [h.1, hr]
  · rw [h.2, hr]
    norm_num [classifyBuffett]

end StockAnalysis
